import Mathlib

/-!
Verification development for the rust-bindgen translation pipeline.

The definitions below are a shallow embedding of the repository's code:
`src/src/lib.rs` (the `Builder`, `BindgenOptions`, `Bindings::generate`,
`Bindings::write`, `str_to_ikind`, `builtin_names`, `parse_headers`) and
`src/src/bin/bindgen.rs` (the command-line front end).  The modules
`types.rs`, `clang.rs`, `parser.rs` and `gen.rs` are declared by `lib.rs`
(`mod types; mod clang; mod gen; mod parser;`) but their sources are not
part of the excerpt; where a property depends on them, a definition is
modelled from the specification and marked as such in its doc comment.
-/

namespace Bindgen

/-- The `LinkType` enum of `src/src/lib.rs` (lines 167-172). -/
inductive LinkType where
  | Static
  | Dynamic
  | Framework
deriving DecidableEq, Repr

/-- The ten integer kinds of `types::IKind` referenced by
`str_to_ikind` in `src/src/lib.rs` (lines 257-271). -/
inductive IKind where
  | IUChar
  | ISChar
  | IUShort
  | IShort
  | IUInt
  | IInt
  | IULong
  | ILong
  | IULongLong
  | ILongLong
deriving DecidableEq, Repr

/-- The `BindgenOptions` struct of `src/src/lib.rs` (lines 131-142),
field for field. -/
structure BindgenOptions where
  match_pat : List String
  builtins : Bool
  rust_enums : Bool
  links : List (String × LinkType)
  emit_ast : Bool
  fail_on_unknown_type : Bool
  override_enum_ty : String
  clang_args : List String
  derive_debug : Bool
  link_prefix : String
deriving DecidableEq, Repr

/-- The names of the fields declared by the `BindgenOptions` struct in
`src/src/lib.rs` (lines 131-142), in declaration order. -/
def bindgenOptionsFieldNames : List String :=
  ["match_pat", "builtins", "rust_enums", "links", "emit_ast",
   "fail_on_unknown_type", "override_enum_ty", "clang_args",
   "derive_debug", "link_prefix"]

/-- A located clang installation, as returned by `Clang::find` of the
external `clang_sys` crate: only its `c_search_paths` are consumed by
`BindgenOptions::default` (lines 146-151 of `src/src/lib.rs`). -/
structure Clang where
  c_search_paths : List String
deriving DecidableEq, Repr

/-- Configuration-stage failure: `BindgenOptions::default` panics with
"No clang found, is it installed?" when `Clang::find` returns nothing. -/
inductive ConfigError where
  | noClangFound
deriving DecidableEq, Repr

/-- Embeds `BindgenOptions::default` (`src/src/lib.rs` lines 144-165).  The
clang installation found in the environment is passed explicitly; the
`expect` panic on a missing installation is embedded as `Except.error`. -/
def mkDefaultOptions : Option Clang → Except ConfigError BindgenOptions
  | none => .error .noClangFound
  | some clang =>
      .ok { match_pat := []
            builtins := false
            rust_enums := true
            links := []
            emit_ast := false
            fail_on_unknown_type := true
            override_enum_ty := ""
            clang_args := clang.c_search_paths.flatMap (fun dir => ["-idirafter", dir])
            derive_debug := true
            link_prefix := "" }

/-- The `Builder` struct of `src/src/lib.rs` (lines 34-38); the logger
is a trait object used only for diagnostics, so the builder state tracks
whether one was set. -/
structure Builder where
  options : BindgenOptions
  hasLogger : Bool
deriving DecidableEq, Repr

/-- Embeds `Builder::clang_arg` (`src/src/lib.rs` lines 55-59): pushes the
argument onto `options.clang_args`. -/
def Builder.clang_arg (b : Builder) (arg : String) : Builder :=
  { b with options := { b.options with clang_args := b.options.clang_args ++ [arg] } }

/-- Embeds `Builder::header` (`src/src/lib.rs` lines 45-48): defined as a call
to `clang_arg`. -/
def Builder.header (b : Builder) (h : String) : Builder :=
  b.clang_arg h

/-- Embeds `Builder::match_pat` (`src/src/lib.rs` lines 50-53). -/
def Builder.match_pat (b : Builder) (arg : String) : Builder :=
  { b with options := { b.options with match_pat := b.options.match_pat ++ [arg] } }

/-- Embeds `Builder::builtins` (`src/src/lib.rs` lines 73-76). -/
def Builder.builtins (b : Builder) : Builder :=
  { b with options := { b.options with builtins := true } }

/-- The strings recognised by `str_to_ikind` (`src/src/lib.rs` lines
257-271), in source order. -/
def recognizedEnumKindNames : List String :=
  ["uchar", "schar", "ushort", "sshort", "uint", "sint",
   "ulong", "slong", "ulonglong", "slonglong"]

/-- Embeds `str_to_ikind`, the nested helper of `parse_headers`
(`src/src/lib.rs` lines 257-271). -/
def str_to_ikind (s : String) : Option IKind :=
  if s = "uchar" then some .IUChar
  else if s = "schar" then some .ISChar
  else if s = "ushort" then some .IUShort
  else if s = "sshort" then some .IShort
  else if s = "uint" then some .IUInt
  else if s = "sint" then some .IInt
  else if s = "ulong" then some .IULong
  else if s = "slong" then some .ILong
  else if s = "ulonglong" then some .IULongLong
  else if s = "slonglong" then some .ILongLong
  else none

/-- Embeds `builtin_names` (`src/src/lib.rs` lines 286-295): the `keys` array
inserted into the set, kept as a list since only membership is used. -/
def builtin_names : List String :=
  ["__va_list_tag", "__va_list", "__builtin_va_list"]

/-- The `parser::ClangParserOptions` struct as constructed by
`parse_headers` (`src/src/lib.rs` lines 273-281): its fields are fixed
by that construction site. -/
structure ClangParserOptions where
  builtin_names : List String
  builtins : Bool
  match_pat : List String
  emit_ast : Bool
  fail_on_unknown_type : Bool
  override_enum_ty : Option IKind
  clang_args : List String
deriving DecidableEq, Repr

/-- The construction of `ClangParserOptions` performed by
`parse_headers` (`src/src/lib.rs` lines 273-281). -/
def mkClangParserOptions (options : BindgenOptions) : ClangParserOptions :=
  { builtin_names := builtin_names
    builtins := options.builtins
    match_pat := options.match_pat
    emit_ast := options.emit_ast
    fail_on_unknown_type := options.fail_on_unknown_type
    override_enum_ty := str_to_ikind options.override_enum_ty
    clang_args := options.clang_args }

/-- Substring test on character lists: `pat` occurs contiguously in
`hay`.  Mirrors Rust's `str::contains` used by the resolver's match
filter. -/
def listContainsSub (pat : List Char) : List Char → Bool
  | [] => pat.isEmpty
  | c :: rest => pat.isPrefixOf (c :: rest) || listContainsSub pat rest

/-- Tests whether `hay` contains `pat` as a substring. -/
def strContains (hay pat : String) : Bool :=
  listContainsSub pat.data hay.data

/-- A top-level declaration as seen by the resolver: its declared name
and the name of the source file it originates from (`none` when the
front end reports no file for it). -/
structure Decl where
  name : String
  origin : Option String
deriving DecidableEq, Repr

/-- Modelled from the spec: the resolver's file-origin filter
(`parser.rs` is not part of the excerpt).  "a declaration is retained
only if either no file-origin match pattern is configured, or the
declaration's origin file name contains at least one configured pattern
(logical OR across patterns). Declarations with empty/missing origin
are retained by default." -/
def file_is_bound (pats : List String) (origin : Option String) : Bool :=
  match origin with
  | none => true
  | some name =>
      if name = "" then true
      else if pats.isEmpty then true
      else pats.any (fun pat => strContains name pat)

/-- Modelled from the spec: the resolver's builtin suppression
(`parser.rs` is not part of the excerpt).  "a fixed set of known
compiler-builtin type names ... is excluded unless explicitly
enabled." -/
def keepBuiltin (builtinsEnabled : Bool) (name : String) : Bool :=
  !(builtin_names.contains name) || builtinsEnabled

/-- Modelled from the spec: the declaration graph produced by the
resolver's single walk (`parser.rs` is not part of the excerpt) —
declarations pass the builtin and file-origin filters and are kept in
first-encountered order. -/
def producedDecls (opts : ClangParserOptions) (tree : List Decl) : List Decl :=
  tree.filter (fun d => keepBuiltin opts.builtins d.name && file_is_bound opts.match_pat d.origin)

/-- Modelled from the spec: "each Enum's underlying integer
representation is either inferred from the front end or overridden
wholesale by a single configured integer kind ... applied uniformly to
all enums in the run" (`parser.rs` is not part of the excerpt). -/
def resolveEnumKind (opts : ClangParserOptions) (inferred : IKind) : IKind :=
  (opts.override_enum_ty).getD inferred

/-- The behaviour of the external front end on a run, as observed by
`parser::parse` (not part of the excerpt): it either yields the cursor
tree, fails to parse the headers, or meets a type it cannot classify
under the strict unknown-type policy. -/
inductive ParseOutcome where
  | success (tree : List Decl)
  | parseFail
  | unknownTypeFail
deriving DecidableEq, Repr

/-- Embeds `Bindings::generate` (`src/src/lib.rs` lines 188-215): its result
type is `Result<Bindings, ()>`, so every failure of `parse_headers` —
whichever way the parse went wrong — is the unit error.  The bindings
artifact is represented by its declaration list. -/
def generateB (options : BindgenOptions) (po : ParseOutcome) : Except Unit (List Decl) :=
  match po with
  | .success tree => .ok (producedDecls (mkClangParserOptions options) tree)
  | .parseFail => .error ()
  | .unknownTypeFail => .error ()

/-- The behaviour of the output destination during `Bindings::write`:
either every write succeeds or the writer reports an `io::Error`,
carried here as its message. -/
inductive WriteEnv where
  | writesOk
  | ioError (msg : String)
deriving DecidableEq, Repr

/-- Embeds `Bindings::write` (`src/src/lib.rs` lines 237-244): returns
`io::Result<()>`, so a failing writer surfaces its `io::Error` value to
the caller. -/
def writeBindings (_bindings : List Decl) (env : WriteEnv) : Except String Unit :=
  match env with
  | .writesOk => .ok ()
  | .ioError msg => .error msg

/-- The failure classes of a whole run, as they reach the caller. -/
inductive RunError where
  | config (e : ConfigError)
  | generation
deriving DecidableEq, Repr

/-- A run started from default options, as the binary does: construct
the configuration (which locates clang), then generate.  The second
component records whether parsing was ever attempted. -/
def runFromEnv (clangEnv : Option Clang) (po : ParseOutcome) :
    Except RunError (List Decl) × Bool :=
  match mkDefaultOptions clangEnv with
  | .error e => (.error (.config e), false)
  | .ok options =>
      match generateB options po with
      | .ok ds => (.ok ds, true)
      | .error () => (.error .generation, true)

/-- The `-no-functions`, `-no-enums`, `-no-globals` and `-no-types`
flags of `parse_args` (`src/src/bin/bindgen.rs` lines 111-126), paired
with the `BindgenOptions` field each one assigns. -/
def parseArgsSuppressionTargets : List (String × String) :=
  [("-no-functions", "functions"), ("-no-enums", "enums"),
   ("-no-globals", "globals"), ("-no-types", "types")]

/-- A C type reference, following the spec's closed set (§3): primitive,
pointer, array, function pointer (a signature used as a type), or a named
reference to another declaration. -/
inductive CTy where
  | void
  | int (k : IKind)
  | ptr (pointee : CTy)
  | array (elem : CTy) (len : Nat)
  | funcPtr (args : List CTy) (ret : CTy)
  | named (n : String)
deriving Repr

/-- A generated Rust type: a primitive/raw name, a mutable raw pointer,
an `Option`-wrapped type, an `extern "C" fn` type, or a fixed array. -/
inductive RTy where
  | raw (n : String)
  | ptrMut (t : RTy)
  | option (t : RTy)
  | externFn (args : List RTy) (ret : RTy)
  | array (t : RTy) (len : Nat)
deriving Repr

/-- The `::std::os::raw` name each integer kind is emitted as, as seen
in `src/tests/test_func.rs` expectations. -/
def rawIntName : IKind → String
  | .IUChar => "c_uchar"
  | .ISChar => "c_schar"
  | .IUShort => "c_ushort"
  | .IShort => "c_short"
  | .IUInt => "c_uint"
  | .IInt => "c_int"
  | .IULong => "c_ulong"
  | .ILong => "c_long"
  | .IULongLong => "c_ulonglong"
  | .ILongLong => "c_longlong"

mutual

/-- Modelled from the spec: the generator's translation of a type
reference in field/parameter position (`gen.rs` is not part of the
excerpt).  "Function-pointer-typed fields/parameters are emitted as an
optional (nullable) callable type, since C permits null function
pointers"; the shape agrees with the expectations of
`src/tests/test_func.rs`. -/
def cvtTy : CTy → RTy
  | .void => .raw "c_void"
  | .int k => .raw (rawIntName k)
  | .ptr t => .ptrMut (cvtTy t)
  | .array t n => .array (cvtTy t) n
  | .funcPtr args ret => .option (.externFn (cvtTys args) (cvtTy ret))
  | .named n => .raw n

/-- Pointwise translation of a list of type references. -/
def cvtTys : List CTy → List RTy
  | [] => []
  | t :: ts => cvtTy t :: cvtTys ts

end

/-- A plain C function declaration: name, named parameters, return type. -/
structure FuncDecl where
  name : String
  args : List (String × CTy)
  ret : CTy
deriving Repr

/-- A field of a composite: name and type reference. -/
structure FieldDecl where
  name : String
  ty : CTy
deriving Repr

/-- A generated Rust declaration: a foreign function inside an
`extern` block (a direct callable signature), or a foreign static. -/
inductive RDecl where
  | foreignFn (name : String) (args : List (String × RTy)) (ret : RTy)
  | foreignStatic (name : String) (ty : RTy)
deriving Repr

/-- Modelled from the spec: "plain function declarations are emitted as
direct callable signatures" (`gen.rs` is not part of the excerpt); each
parameter type is translated by `cvtTy`. -/
def genFunc (f : FuncDecl) : RDecl :=
  .foreignFn f.name (f.args.map (fun a => (a.1, cvtTy a.2))) (cvtTy f.ret)

/-- Modelled from the spec: a composite field is emitted with its
translated type. -/
def genField (f : FieldDecl) : String × RTy :=
  (f.name, cvtTy f.ty)

/-- A concrete configuration used by closed-form theorems: the default
configuration of an environment whose clang has no extra search paths. -/
def sampleOptions : BindgenOptions :=
  { match_pat := []
    builtins := false
    rust_enums := true
    links := []
    emit_ast := false
    fail_on_unknown_type := true
    override_enum_ty := ""
    clang_args := []
    derive_debug := true
    link_prefix := "" }

end Bindgen

namespace Bindgen

/-!
### Claim theorems
-/

/-- C10: for every builder state and every string, `Builder::header` is
observably identical to `Builder::clang_arg`: both append the string to
the shared `clang_args` list in call order, and neither call modifies
any other configuration field or the logger. -/
theorem header_is_clang_arg (b : Builder) (h : String) :
    b.header h = b.clang_arg h ∧
    (b.clang_arg h).options.clang_args = b.options.clang_args ++ [h] ∧
    (b.header h).options.clang_args = b.options.clang_args ++ [h] ∧
    (b.clang_arg h).options.match_pat = b.options.match_pat ∧
    (b.clang_arg h).options.builtins = b.options.builtins ∧
    (b.clang_arg h).options.rust_enums = b.options.rust_enums ∧
    (b.clang_arg h).options.links = b.options.links ∧
    (b.clang_arg h).options.emit_ast = b.options.emit_ast ∧
    (b.clang_arg h).options.fail_on_unknown_type = b.options.fail_on_unknown_type ∧
    (b.clang_arg h).options.override_enum_ty = b.options.override_enum_ty ∧
    (b.clang_arg h).options.derive_debug = b.options.derive_debug ∧
    (b.clang_arg h).options.link_prefix = b.options.link_prefix ∧
    (b.clang_arg h).hasLogger = b.hasLogger :=
  ⟨rfl, rfl, rfl, rfl, rfl, rfl, rfl, rfl, rfl, rfl, rfl, rfl, rfl⟩

/-- C3: when no usable clang installation is located, the failure occurs
at configuration construction (`BindgenOptions::default`), is a
configuration error distinct from the generation-stage error, and for
every front-end behaviour no parsing is attempted after it. -/
theorem no_clang_is_config_failure_before_parsing :
    mkDefaultOptions none = Except.error ConfigError.noClangFound ∧
    (∀ po : ParseOutcome,
      runFromEnv none po =
        (Except.error (RunError.config ConfigError.noClangFound), false)) ∧
    (∀ e : ConfigError, RunError.config e ≠ RunError.generation) :=
  ⟨rfl, fun _ => rfl, fun _ hcontra => RunError.noConfusion hcontra⟩

/-- Closed instance of `no_clang_is_config_failure_before_parsing` at a
concrete front-end behaviour. -/
theorem no_clang_is_config_failure_before_parsing_witness :
    runFromEnv none ParseOutcome.parseFail =
      (Except.error (RunError.config ConfigError.noClangFound), false) ∧
    RunError.config ConfigError.noClangFound ≠ RunError.generation :=
  ⟨no_clang_is_config_failure_before_parsing.2.1 ParseOutcome.parseFail,
   no_clang_is_config_failure_before_parsing.2.2 ConfigError.noClangFound⟩

/-- C1 (counterexample): `Bindings::generate` returns `Result<Bindings, ()>`,
so at the concrete default configuration its result for a parse/ingestion
failure equals — error value included — its result for an unknown-type
failure; the returned error values cannot separate these classes. -/
theorem generate_error_collapses_parse_and_unknown :
    generateB sampleOptions ParseOutcome.parseFail = Except.error () ∧
    generateB sampleOptions ParseOutcome.unknownTypeFail = Except.error () ∧
    generateB sampleOptions ParseOutcome.parseFail =
      generateB sampleOptions ParseOutcome.unknownTypeFail :=
  ⟨rfl, rfl, rfl⟩

/-- C1 (amended): the caller separates a generation failure (the opaque
unit error of `Bindings::generate`, covering parse/ingestion and
unknown-type failures without distinguishing between them) from an
output-write failure (the `io::Error` value returned by
`Bindings::write`); a missing front end is not an error value of either
result, since it aborts configuration construction beforehand. -/
theorem generate_write_failure_separation :
    (∀ (options : BindgenOptions) (po : ParseOutcome),
      po = ParseOutcome.parseFail ∨ po = ParseOutcome.unknownTypeFail →
      generateB options po = Except.error ()) ∧
    (∀ (bindings : List Decl) (msg : String),
      writeBindings bindings (WriteEnv.ioError msg) = Except.error msg) ∧
    (∀ po : ParseOutcome,
      (runFromEnv none po).1 =
        Except.error (RunError.config ConfigError.noClangFound)) := by
  refine ⟨?_, fun bindings msg => rfl, fun po => rfl⟩
  rintro options po (rfl | rfl) <;> rfl

/-- Closed instance of `generate_write_failure_separation`. -/
theorem generate_write_failure_separation_witness :
    generateB sampleOptions ParseOutcome.parseFail = Except.error () ∧
    writeBindings [] (WriteEnv.ioError "disk full") = Except.error "disk full" :=
  ⟨generate_write_failure_separation.1 sampleOptions ParseOutcome.parseFail (Or.inl rfl),
   generate_write_failure_separation.2.1 [] "disk full"⟩

/-- C2 (code bug): the `-no-functions`, `-no-enums`, `-no-globals` and
`-no-types` flags of `parse_args` assign the fields `functions`,
`enums`, `globals` and `types` on the options value, but none of those
four field names is declared by the `BindgenOptions` struct of
`src/src/lib.rs`; the four suppression knobs do not exist in the run
configuration. -/
theorem suppression_fields_absent_from_options :
    parseArgsSuppressionTargets.all
      (fun p => !(bindgenOptionsFieldNames.contains p.2)) = true := by decide

/-- C4: a declaration is retained by the file-origin filter iff the
pattern list is empty or its origin file name contains at least one
configured pattern substring (logical OR over the patterns); an empty
or missing origin is retained regardless of the patterns. -/
theorem match_pattern_retention (pats : List String) (origin : Option String) :
    file_is_bound pats origin = true ↔
      (pats = [] ∨ ∃ p ∈ pats, strContains (origin.getD "") p = true) ∨
      (origin = none ∨ origin = some "") := by
  cases origin with
  | none => simp [file_is_bound]
  | some name =>
      by_cases hname : name = ""
      · subst hname; simp [file_is_bound]
      · cases pats with
        | nil => simp [file_is_bound, hname]
        | cons q qs =>
            simp [file_is_bound, hname, List.any_eq_true]

/-- Closed instance of `match_pattern_retention` on a matching file. -/
theorem match_pattern_retention_witness :
    file_is_bound ["mylib"] (some "include/mylib.h") = true :=
  (match_pattern_retention ["mylib"] (some "include/mylib.h")).mpr
    (Or.inl (Or.inr ⟨"mylib", by decide, by decide⟩))

/-- C5: `str_to_ikind` accepts exactly the ten kind names, each mapping
to the corresponding signed/unsigned integer kind, and a recognised
configured override is applied uniformly: every enum resolved in the
run takes the overridden kind in place of the inferred one. -/
theorem override_enum_ten_kinds :
    (∀ s : String, (str_to_ikind s).isSome = true ↔ s ∈ recognizedEnumKindNames) ∧
    (str_to_ikind "uchar" = some IKind.IUChar ∧
     str_to_ikind "schar" = some IKind.ISChar ∧
     str_to_ikind "ushort" = some IKind.IUShort ∧
     str_to_ikind "sshort" = some IKind.IShort ∧
     str_to_ikind "uint" = some IKind.IUInt ∧
     str_to_ikind "sint" = some IKind.IInt ∧
     str_to_ikind "ulong" = some IKind.IULong ∧
     str_to_ikind "slong" = some IKind.ILong ∧
     str_to_ikind "ulonglong" = some IKind.IULongLong ∧
     str_to_ikind "slonglong" = some IKind.ILongLong) ∧
    (∀ (options : BindgenOptions) (k inferred : IKind),
      str_to_ikind options.override_enum_ty = some k →
      resolveEnumKind (mkClangParserOptions options) inferred = k) := by
  refine ⟨?_, ⟨rfl, rfl, rfl, rfl, rfl, rfl, rfl, rfl, rfl, rfl⟩, ?_⟩
  · intro s
    unfold str_to_ikind
    split_ifs with h1 h2 h3 h4 h5 h6 h7 h8 h9 h10 <;>
      simp_all [recognizedEnumKindNames]
  · intro options k inferred hk
    simp [resolveEnumKind, mkClangParserOptions, hk]

/-- Closed instance of `override_enum_ten_kinds`: the `ulonglong`
override is recognised and applied over an inferred `int`. -/
theorem override_enum_ten_kinds_witness :
    (str_to_ikind "ulonglong").isSome = true ∧
    resolveEnumKind
      (mkClangParserOptions { sampleOptions with override_enum_ty := "ulonglong" })
      IKind.IInt = IKind.IULongLong :=
  ⟨(override_enum_ten_kinds.1 "ulonglong").mpr (by decide),
   override_enum_ten_kinds.2.2 { sampleOptions with override_enum_ty := "ulonglong" }
     IKind.IULongLong IKind.IInt (by decide)⟩

/-- C6: the builtin name set is exactly the three variadic-argument
marker names, a declaration bearing one of them is excluded from the
produced declarations whenever the builtins flag is disabled, and with
the flag enabled the builtin filter retains every name. -/
theorem builtin_names_excluded_unless_enabled :
    (∀ s : String, s ∈ builtin_names ↔
      s = "__va_list_tag" ∨ s = "__va_list" ∨ s = "__builtin_va_list") ∧
    (∀ (opts : ClangParserOptions) (tree : List Decl) (d : Decl),
      d.name ∈ builtin_names → opts.builtins = false →
      d ∉ producedDecls opts tree) ∧
    (∀ (opts : ClangParserOptions) (name : String), opts.builtins = true →
      keepBuiltin opts.builtins name = true) := by
  refine ⟨?_, ?_, ?_⟩
  · intro s; simp [builtin_names]
  · intro opts tree d hmem hflag hin
    have hpred := (List.mem_filter.mp hin).2
    rw [Bool.and_eq_true] at hpred
    have hk := hpred.1
    simp [keepBuiltin, hflag] at hk
    exact hk hmem
  · intro opts name hflag
    simp [keepBuiltin, hflag]

/-- Closed instance of `builtin_names_excluded_unless_enabled`: with the
default configuration (builtins disabled), `__builtin_va_list` is not
among the produced declarations. -/
theorem builtin_names_excluded_unless_enabled_witness :
    ("__builtin_va_list" ∈ builtin_names) ∧
    Decl.mk "__builtin_va_list" (some "stddef.h") ∉
      producedDecls (mkClangParserOptions sampleOptions)
        [Decl.mk "__builtin_va_list" (some "stddef.h")] :=
  ⟨by decide,
   builtin_names_excluded_unless_enabled.2.1 (mkClangParserOptions sampleOptions)
     [Decl.mk "__builtin_va_list" (some "stddef.h")]
     (Decl.mk "__builtin_va_list" (some "stddef.h")) (by decide) (by decide)⟩

/-- C9: every override string outside the ten recognised names maps to
no kind; the parser options then carry no override, every enum falls
back to its inferred representation, and the constructed options equal
those built with the empty default string, so the run proceeds exactly
as if no override were configured and no error is produced. -/
theorem unrecognized_override_silently_ignored :
    (∀ s : String, s ∉ recognizedEnumKindNames → str_to_ikind s = none) ∧
    (∀ options : BindgenOptions,
      str_to_ikind options.override_enum_ty = none →
      (mkClangParserOptions options).override_enum_ty = none ∧
      (∀ inferred : IKind,
        resolveEnumKind (mkClangParserOptions options) inferred = inferred) ∧
      mkClangParserOptions options =
        mkClangParserOptions { options with override_enum_ty := "" }) := by
  refine ⟨?_, ?_⟩
  · intro s hs
    unfold str_to_ikind
    split_ifs with h1 h2 h3 h4 h5 h6 h7 h8 h9 h10 <;>
      simp_all [recognizedEnumKindNames]
  · intro options hnone
    refine ⟨by simp [mkClangParserOptions, hnone], ?_, ?_⟩
    · intro inferred
      simp [resolveEnumKind, mkClangParserOptions, hnone]
    · have hempty : str_to_ikind "" = none := rfl
      simp [mkClangParserOptions, hnone, hempty]

/-- Closed instance of `unrecognized_override_silently_ignored` at the
unrecognised override string "int". -/
theorem unrecognized_override_silently_ignored_witness :
    str_to_ikind "int" = none ∧
    mkClangParserOptions { sampleOptions with override_enum_ty := "int" } =
      mkClangParserOptions
        { { sampleOptions with override_enum_ty := "int" } with
            override_enum_ty := "" } := by
  have h1 := unrecognized_override_silently_ignored.1 "int" (by decide)
  have h2 := unrecognized_override_silently_ignored.2
    { sampleOptions with override_enum_ty := "int" } h1
  exact ⟨h1, h2.2.2⟩

/-- C7: the pipeline is deterministic — two runs with equal
configuration and equal front-end behaviour produce equal bindings —
and the produced declaration list preserves the first-encountered
order of the cursor tree. -/
theorem pipeline_deterministic :
    (∀ (o₁ o₂ : BindgenOptions) (p₁ p₂ : ParseOutcome),
      o₁ = o₂ → p₁ = p₂ → generateB o₁ p₁ = generateB o₂ p₂) ∧
    (∀ (options : BindgenOptions) (tree ds : List Decl),
      generateB options (ParseOutcome.success tree) = Except.ok ds →
      ds.Sublist tree) := by
  refine ⟨?_, ?_⟩
  · intro o₁ o₂ p₁ p₂ ho hp
    rw [ho, hp]
  · intro options tree ds hds
    simp only [generateB, Except.ok.injEq] at hds
    subst hds
    exact List.filter_sublist tree

/-- Closed instance of `pipeline_deterministic` on a one-declaration
tree under the default configuration. -/
theorem pipeline_deterministic_witness :
    generateB sampleOptions (ParseOutcome.success [Decl.mk "point" (some "point.h")]) =
      generateB sampleOptions (ParseOutcome.success [Decl.mk "point" (some "point.h")]) ∧
    [Decl.mk "point" (some "point.h")].Sublist [Decl.mk "point" (some "point.h")] :=
  ⟨pipeline_deterministic.1 sampleOptions sampleOptions
     (ParseOutcome.success [Decl.mk "point" (some "point.h")])
     (ParseOutcome.success [Decl.mk "point" (some "point.h")]) rfl rfl,
   pipeline_deterministic.2 sampleOptions [Decl.mk "point" (some "point.h")]
     [Decl.mk "point" (some "point.h")] rfl⟩

/-- C8: a function-pointer type reference in field or parameter
position is translated to an `Option`-wrapped `extern "C" fn` type,
while a plain C function declaration is emitted as a direct foreign
function whose own signature carries no `Option` wrapper. -/
theorem func_ptr_emitted_optional :
    (∀ (args : List CTy) (ret : CTy),
      cvtTy (CTy.funcPtr args ret) =
        RTy.option (RTy.externFn (cvtTys args) (cvtTy ret))) ∧
    (∀ (f : FieldDecl) (args : List CTy) (ret : CTy),
      f.ty = CTy.funcPtr args ret →
      genField f = (f.name, RTy.option (RTy.externFn (cvtTys args) (cvtTy ret)))) ∧
    (∀ f : FuncDecl, genFunc f =
      RDecl.foreignFn f.name (f.args.map (fun a => (a.1, cvtTy a.2))) (cvtTy f.ret)) := by
  refine ⟨fun args ret => by simp [cvtTy], ?_, fun f => rfl⟩
  intro f args ret hty
  simp [genField, hty, cvtTy]

/-- Closed instance of `func_ptr_emitted_optional` matching the shapes
of `src/tests/test_func.rs`. -/
theorem func_ptr_emitted_optional_witness :
    cvtTy (CTy.funcPtr [CTy.int IKind.IInt, CTy.int IKind.IInt] (CTy.int IKind.IInt)) =
      RTy.option (RTy.externFn [RTy.raw "c_int", RTy.raw "c_int"] (RTy.raw "c_int")) ∧
    genField (FieldDecl.mk "bar" (CTy.funcPtr [] CTy.void)) =
      ("bar", RTy.option (RTy.externFn [] (RTy.raw "c_void"))) := by
  constructor
  · have h := func_ptr_emitted_optional.1
      [CTy.int IKind.IInt, CTy.int IKind.IInt] (CTy.int IKind.IInt)
    rw [h]
    simp [cvtTys, cvtTy, rawIntName]
  · have h := func_ptr_emitted_optional.2.1
      (FieldDecl.mk "bar" (CTy.funcPtr [] CTy.void)) [] CTy.void rfl
    rw [h]
    simp [cvtTys, cvtTy]

end Bindgen
